import Mathlib

/-!
# BedrockHole — verification of the natural-language specification

A shallow embedding of the BedrockHole TCP reverse tunnel (Rust) in Lean 4:
the STUN XOR-MAPPED-ADDRESS decoder (`src/stun.rs`), the heartbeat demux in
the forwarder accept loop (`src/forward.rs`), the STUN maintainer's publish
step (`src/stun.rs`), the Cloudflare DDNS upsert sequence
(`src/ddns/cloudflare.rs`) and the PROXY protocol v1/v2 header builders
(`src/forward.rs`).

Bytes are modelled as `Nat` (values < 256 where it matters), machine u16s as
`Nat` with explicit `% 2 ^ 16`, buffers as `List Nat`, and Rust's fallible
paths as explicit result types.  Rust's index-out-of-bounds panic is modelled
as a distinguished `panicOOB` outcome.
-/

set_option maxRecDepth 4096

namespace BedrockHole

/-! ## STUN codec, from `src/stun.rs`

```rust
const STUN_MAGIC_COOKIE: u32 = 0x2112A442;
const ATTR_XOR_MAPPED_ADDRESS: u16 = 0x0020;
```
-/

def STUN_MAGIC_COOKIE : Nat := 0x2112A442

def ATTR_XOR_MAPPED_ADDRESS : Nat := 0x0020

/-- `u16::from_be_bytes([a, b])` on byte values. -/
def u16_be (a b : Nat) : Nat := 256 * a + b

/-- Outcome of `parse_addr`: `Ok(SocketAddr)` (always IPv4 here), the
short-buffer error, the attribute-not-found error, or a Rust
index-out-of-bounds panic. -/
inductive ParseResult where
  | ok (ip : Nat × Nat × Nat × Nat) (port : Nat)
  | errLength
  | errNotFound
  | panicOOB
deriving DecidableEq, Repr

/-- One step of the `while pos + 4 <= buf.len()` TLV scan of `parse_addr`,
with explicit fuel.  Each loop iteration advances `pos` by at least 4, so
`fuel = buf.length` always suffices (see `parseScan_fuel_irrel`); the fuel
only makes the recursion structural.

```rust
while pos + 4 <= buf.len() {
    let attr_type = u16::from_be_bytes([buf[pos], buf[pos + 1]]);
    let attr_len = u16::from_be_bytes([buf[pos + 2], buf[pos + 3]]) as usize;
    pos += 4;
    if attr_type == ATTR_XOR_MAPPED_ADDRESS {
        let x_port = u16::from_be_bytes([buf[pos + 2], buf[pos + 3]]);
        let x_ip = [buf[pos + 4], buf[pos + 5], buf[pos + 6], buf[pos + 7]];
        let port = x_port ^ (STUN_MAGIC_COOKIE >> 16) as u16;
        let mc_bytes = STUN_MAGIC_COOKIE.to_be_bytes();
        let ip = Ipv4Addr::new(x_ip[0] ^ mc_bytes[0], x_ip[1] ^ mc_bytes[1],
                               x_ip[2] ^ mc_bytes[2], x_ip[3] ^ mc_bytes[3]);
    return Ok(SocketAddr::new(IpAddr::V4(ip), port));
    }
    pos += attr_len;
}
```
The reads `buf[pos + 2] … buf[pos + 7]` after `pos += 4` are *not* bounds
checked by the loop condition; when one of them is out of range the Rust
program panics, which the model reports as `panicOOB`. -/
def parseScan (buf : List Nat) : Nat → Nat → ParseResult
  | 0, _ => ParseResult.errNotFound
  | fuel + 1, pos =>
    if pos + 4 ≤ buf.length then
      let attrType := u16_be (buf.getD pos 0) (buf.getD (pos + 1) 0)
      let attrLen := u16_be (buf.getD (pos + 2) 0) (buf.getD (pos + 3) 0)
      let p := pos + 4
      if attrType = ATTR_XOR_MAPPED_ADDRESS then
        if p + 8 ≤ buf.length then
          let xPort := u16_be (buf.getD (p + 2) 0) (buf.getD (p + 3) 0)
          let port := Nat.xor xPort ((STUN_MAGIC_COOKIE >>> 16) % 2 ^ 16)
          let ip := (Nat.xor (buf.getD (p + 4) 0) ((STUN_MAGIC_COOKIE >>> 24) % 256),
                     Nat.xor (buf.getD (p + 5) 0) ((STUN_MAGIC_COOKIE >>> 16) % 256),
                     Nat.xor (buf.getD (p + 6) 0) ((STUN_MAGIC_COOKIE >>> 8) % 256),
                     Nat.xor (buf.getD (p + 7) 0) (STUN_MAGIC_COOKIE % 256))
          ParseResult.ok ip port
        else ParseResult.panicOOB
      else parseScan buf fuel (p + attrLen)
    else ParseResult.errNotFound

/-- `fn parse_addr(buf: &[u8]) -> anyhow::Result<SocketAddr>`:
reject buffers shorter than 20 bytes, then scan TLV attributes from
offset 20. -/
def parse_addr (buf : List Nat) : ParseResult :=
  if buf.length < 20 then ParseResult.errLength
  else parseScan buf buf.length 20

/-- The fuel is irrelevant as soon as `4 * fuel` steps of at-least-4 progress
cover the part of the buffer after `pos`: the scan genuinely terminates and
the fuel used in `parse_addr` computes the loop's true result. -/
theorem parseScan_fuel_irrel (buf : List Nat) :
    ∀ fuel fuel' pos, buf.length ≤ pos + 4 * fuel → buf.length ≤ pos + 4 * fuel' →
      parseScan buf fuel pos = parseScan buf fuel' pos := by
  intro fuel
  induction fuel with
  | zero =>
    intro fuel' pos h h'
    cases fuel' with
    | zero => rfl
    | succ f =>
      simp only [parseScan]
      have : ¬ pos + 4 ≤ buf.length := by omega
      simp [this]
  | succ f ih =>
    intro fuel' pos h h'
    cases fuel' with
    | zero =>
      simp only [parseScan]
      have : ¬ pos + 4 ≤ buf.length := by omega
      simp [this]
    | succ f' =>
      simp only [parseScan]
      by_cases hc : pos + 4 ≤ buf.length
      · simp only [hc, if_true]
        split
        · rfl
        · exact ih f' _ (by omega) (by omega)
      · simp [hc]

-- sanity checks of the model on concrete buffers
example : parse_addr ([0x01, 0x01, 0x00, 0x10, 0x21, 0x12, 0xA4, 0x42] ++
    List.replicate 12 0xAA ++
    [0x00, 0x20, 0x00, 0x08, 0x00, 0x01, 0xE1, 0xB4, 0xFE, 0xED, 0xCA, 0xFE]) =
    ParseResult.ok (223, 255, 110, 188) 49318 := by decide

example : parse_addr (List.replicate 20 0 ++ [0, 0x20, 0, 8]) = ParseResult.panicOOB := by decide

example : parse_addr (List.replicate 19 0) = ParseResult.errLength := by decide

example : parse_addr (List.replicate 24 0) = ParseResult.errNotFound := by decide

/-- Unfolding of one scan step (the loop body of `parse_addr`). -/
theorem parseScan_succ (buf : List Nat) (fuel pos : Nat) :
    parseScan buf (fuel + 1) pos =
      if pos + 4 ≤ buf.length then
        if u16_be (buf.getD pos 0) (buf.getD (pos + 1) 0) = ATTR_XOR_MAPPED_ADDRESS then
          if pos + 4 + 8 ≤ buf.length then
            ParseResult.ok
              (Nat.xor (buf.getD (pos + 4 + 4) 0) ((STUN_MAGIC_COOKIE >>> 24) % 256),
               Nat.xor (buf.getD (pos + 4 + 5) 0) ((STUN_MAGIC_COOKIE >>> 16) % 256),
               Nat.xor (buf.getD (pos + 4 + 6) 0) ((STUN_MAGIC_COOKIE >>> 8) % 256),
               Nat.xor (buf.getD (pos + 4 + 7) 0) (STUN_MAGIC_COOKIE % 256))
              (Nat.xor (u16_be (buf.getD (pos + 4 + 2) 0) (buf.getD (pos + 4 + 3) 0))
                ((STUN_MAGIC_COOKIE >>> 16) % 2 ^ 16))
          else ParseResult.panicOOB
        else parseScan buf fuel (pos + 4 + u16_be (buf.getD (pos + 2) 0) (buf.getD (pos + 3) 0))
      else ParseResult.errNotFound := rfl

/-- Helper: a buffer made of an arbitrary 20-byte header followed by a
XOR-MAPPED-ADDRESS attribute with XORed port and IP bytes parses to the
plain `ip:p`; shared by the round-trip and scenario theorems. -/
theorem parse_addr_attr_at_20
    (hdr : List Nat) (l1 l2 f0 f1 p a b c d : Nat)
    (hhdr : hdr.length = 20) :
    parse_addr (hdr ++ [0x00, 0x20, l1, l2, f0, f1,
        (p ^^^ 0x2112) / 256, (p ^^^ 0x2112) % 256,
        a ^^^ 0x21, b ^^^ 0x12, c ^^^ 0xA4, d ^^^ 0x42]) =
      ParseResult.ok (a, b, c, d) p := by
  set rest : List Nat := [0x00, 0x20, l1, l2, f0, f1,
      (p ^^^ 0x2112) / 256, (p ^^^ 0x2112) % 256,
      a ^^^ 0x21, b ^^^ 0x12, c ^^^ 0xA4, d ^^^ 0x42] with hrest
  have hlen : (hdr ++ rest).length = 32 := by
    simp [hhdr, hrest]
  have g : ∀ k, 20 ≤ k → (hdr ++ rest)[k]? = rest[k - 20]? := by
    intro k hk
    rw [List.getElem?_append_right (by omega), hhdr]
  rw [parse_addr]
  rw [if_neg (by omega)]
  rw [hlen]
  rw [show (32 : Nat) = 31 + 1 from rfl, parseScan_succ, hlen]
  norm_num
  rw [g 20 (by norm_num), g 21 (by norm_num), g 26 (by norm_num), g 27 (by norm_num),
      g 28 (by norm_num), g 29 (by norm_num), g 30 (by norm_num), g 31 (by norm_num)]
  norm_num [hrest, u16_be, ATTR_XOR_MAPPED_ADDRESS, STUN_MAGIC_COOKIE]
  rw [Nat.div_add_mod]
  exact ⟨⟨Nat.xor_cancel_right 33 a, Nat.xor_cancel_right 18 b,
    Nat.xor_cancel_right 164 c, Nat.xor_cancel_right 66 d⟩, Nat.xor_cancel_right 8466 p⟩

/-- C1: STUN round-trip.  For every IPv4 address `(a, b, c, d)` and 16-bit
port `p`, a Binding Response whose attribute region starts at offset 20 with
a XOR-MAPPED-ADDRESS attribute (type `0x0020`) whose payload holds, after the
two skipped family/reserved bytes, `p` XORed with the high 16 bits of the
magic cookie `0x2112A442` (as a big-endian u16) and the four octets of the IP
XORed byte-wise with the cookie, is parsed by `parse_addr` to exactly
`ip:p`. -/
theorem parse_addr_xor_roundtrip
    (hdr : List Nat) (l1 l2 f0 f1 p a b c d : Nat)
    (hhdr : hdr.length = 20) (_hp : p < 2 ^ 16)
    (_ha : a < 256) (_hb : b < 256) (_hc : c < 256) (_hd : d < 256) :
    parse_addr (hdr ++ [0x00, 0x20, l1, l2, f0, f1,
        (p ^^^ 0x2112) / 256, (p ^^^ 0x2112) % 256,
        a ^^^ 0x21, b ^^^ 0x12, c ^^^ 0xA4, d ^^^ 0x42]) =
      ParseResult.ok (a, b, c, d) p :=
  parse_addr_attr_at_20 hdr l1 l2 f0 f1 p a b c d hhdr

/-- Concrete instance of the round-trip theorem: zero header, ip `1.2.3.4`,
port `5`. -/
theorem parse_addr_xor_roundtrip_witness :
    parse_addr (List.replicate 20 0 ++ [0x00, 0x20, 0x00, 0x08, 0x00, 0x01,
        (5 ^^^ 0x2112) / 256, (5 ^^^ 0x2112) % 256,
        1 ^^^ 0x21, 2 ^^^ 0x12, 3 ^^^ 0xA4, 4 ^^^ 0x42]) =
      ParseResult.ok (1, 2, 3, 4) 5 :=
  parse_addr_xor_roundtrip (List.replicate 20 0) 0x00 0x08 0x00 0x01 5 1 2 3 4
    (by decide) (by decide) (by decide) (by decide) (by decide) (by decide)

/-- The scenario-S1 response buffer of the specification: STUN header
`0101 0010 2112A442`, a transaction ID, then the attribute
`0020 0008 | 0001 | xport=E1B4 | xip=FEEDCAFE`. -/
def s1Buffer (tid : List Nat) : List Nat :=
  [0x01, 0x01, 0x00, 0x10, 0x21, 0x12, 0xA4, 0x42] ++ tid ++
    [0x00, 0x20, 0x00, 0x08, 0x00, 0x01, 0xE1, 0xB4, 0xFE, 0xED, 0xCA, 0xFE]

/-- C2 (counterexample): on the S1 buffer (with the reference transaction ID
`0xAA × 12`) `parse_addr` does *not* return `127.255.110.188:49318`:
`0xFE ^ 0x21 = 0xDF = 223`, not `127`. -/
theorem s1_not_127 :
    parse_addr (s1Buffer (List.replicate 12 0xAA)) ≠
      ParseResult.ok (127, 255, 110, 188) 49318 := by decide

/-- C2 (amended): for any 12-byte transaction ID, `parse_addr` on the S1
buffer returns `223.255.110.188:49318` (XORing `FEEDCAFE` with the cookie
`2112A442` gives `DF FF 6E BC`). -/
theorem parse_addr_s1 (tid : List Nat) (htid : tid.length = 12) :
    parse_addr (s1Buffer tid) = ParseResult.ok (223, 255, 110, 188) 49318 := by
  have h := parse_addr_attr_at_20
    ([0x01, 0x01, 0x00, 0x10, 0x21, 0x12, 0xA4, 0x42] ++ tid)
    0x00 0x08 0x00 0x01 49318 223 255 110 188 (by simp [htid])
  rw [List.append_assoc] at h
  simpa [s1Buffer] using h

/-- Concrete instance of the amended S1 theorem at the reference transaction
ID. -/
theorem parse_addr_s1_witness :
    parse_addr (s1Buffer (List.replicate 12 0xAA)) =
      ParseResult.ok (223, 255, 110, 188) 49318 :=
  parse_addr_s1 (List.replicate 12 0xAA) (by decide)

/-- C3: `parse_addr` is *not* panic-free.  On the 24-byte buffer consisting
of 20 zero header bytes followed by the attribute header `00 20 00 08`
(type `0x0020`, declared length 8, but no payload bytes remaining), the scan
accepts the header (`pos + 4 ≤ len` holds at `pos = 20`) and then reads
`buf[26] … buf[31]`, all out of bounds: the Rust program panics with an
index-out-of-range error instead of returning the
`XOR-MAPPED-ADDRESS not found` error. -/
theorem parse_addr_truncated_attr_panics :
    parse_addr (List.replicate 20 0 ++ [0x00, 0x20, 0x00, 0x08]) =
      ParseResult.panicOOB := by decide

/-- The TLV scan only ever reads the buffer at positions `≥ pos`: two buffers
of equal length that agree on every byte from position 20 onward scan
identically from any position `≥ 20`. -/
theorem parseScan_ext (b1 b2 : List Nat) (hl : b1.length = b2.length)
    (hb : ∀ k, 20 ≤ k → b1.getD k 0 = b2.getD k 0) :
    ∀ fuel pos, 20 ≤ pos → parseScan b1 fuel pos = parseScan b2 fuel pos := by
  intro fuel
  induction fuel with
  | zero => intro pos _; rfl
  | succ f ih =>
    intro pos hpos
    rw [parseScan_succ, parseScan_succ, ← hl]
    rw [hb pos (by omega), hb (pos + 1) (by omega), hb (pos + 2) (by omega),
        hb (pos + 3) (by omega), hb (pos + 4 + 2) (by omega), hb (pos + 4 + 3) (by omega),
        hb (pos + 4 + 4) (by omega), hb (pos + 4 + 5) (by omega),
        hb (pos + 4 + 6) (by omega), hb (pos + 4 + 7) (by omega)]
    by_cases h4 : pos + 4 ≤ b1.length
    · rw [if_pos h4, if_pos h4]
      split
      · rfl
      · exact ih (pos + 4 + u16_be (b2.getD (pos + 2) 0) (b2.getD (pos + 3) 0)) (by omega)
    · rw [if_neg h4, if_neg h4]

/-- C10: `parse_addr` never inspects the 20-byte STUN message header.  Any
two buffers of equal length, at least 20 bytes, that agree from offset 20
onward parse to the same result — the message type, declared length, magic
cookie and transaction ID are not validated. -/
theorem parse_addr_header_independent (b1 b2 : List Nat)
    (hl : b1.length = b2.length) (h20 : 20 ≤ b1.length)
    (hdrop : b1.drop 20 = b2.drop 20) :
    parse_addr b1 = parse_addr b2 := by
  have hb : ∀ k, 20 ≤ k → b1.getD k 0 = b2.getD k 0 := by
    intro k hk
    rw [List.getD_eq_getElem?_getD, List.getD_eq_getElem?_getD]
    have e1 : b1[k]? = (b1.drop 20)[k - 20]? := by
      rw [List.getElem?_drop]
      congr 1
      omega
    have e2 : b2[k]? = (b2.drop 20)[k - 20]? := by
      rw [List.getElem?_drop]
      congr 1
      omega
    rw [e1, e2, hdrop]
  rw [parse_addr, parse_addr, ← hl, if_neg (by omega), if_neg (by omega)]
  exact parseScan_ext b1 b2 hl hb b1.length 20 (by omega)

/-- Concrete instance of header independence: an all-zero header and a
realistic Binding-Response header with the same attribute bytes decode to
the same (successful) result. -/
theorem parse_addr_header_independent_witness :
    parse_addr (List.replicate 20 0 ++
        [0x00, 0x20, 0x00, 0x08, 0x00, 0x01, 0xE1, 0xB4, 0xFE, 0xED, 0xCA, 0xFE]) =
      parse_addr (s1Buffer (List.replicate 12 0xAA)) ∧
    parse_addr (List.replicate 20 0 ++
        [0x00, 0x20, 0x00, 0x08, 0x00, 0x01, 0xE1, 0xB4, 0xFE, 0xED, 0xCA, 0xFE]) =
      ParseResult.ok (223, 255, 110, 188) 49318 :=
  ⟨parse_addr_header_independent _ _ (by decide) (by decide) (by decide), by decide⟩

/-! ## IP addresses, the accept-loop demux and the maintainer step

From `src/forward.rs` (`listener_handle`, `heartbeat_server`) and
`src/stun.rs` (`stun_loop`).  IPv6 addresses are modelled by their eight
16-bit segments, as in `Ipv6Addr::segments()`.
-/

/-- An IPv6 address as its eight 16-bit segments. -/
structure Ip6 where
  s0 : Nat
  s1 : Nat
  s2 : Nat
  s3 : Nat
  s4 : Nat
  s5 : Nat
  s6 : Nat
  s7 : Nat
deriving DecidableEq, Repr

/-- `std::net::IpAddr`. -/
inductive IpAddr where
  | v4 (ip : Nat × Nat × Nat × Nat)
  | v6 (ip : Ip6)
deriving DecidableEq, Repr

/-- `Ipv6Addr::to_ipv4_mapped`: `::ffff:a.b.c.d` (first ten octets zero,
then `0xFF 0xFF`) yields the embedded IPv4 address. -/
def to_ipv4_mapped (ip : Ip6) : Option (Nat × Nat × Nat × Nat) :=
  if ip.s0 = 0 ∧ ip.s1 = 0 ∧ ip.s2 = 0 ∧ ip.s3 = 0 ∧ ip.s4 = 0 ∧ ip.s5 = 0xFFFF then
    some (ip.s6 >>> 8, ip.s6 % 256, ip.s7 >>> 8, ip.s7 % 256)
  else none

/-- `IpAddr::to_canonical`: strip the IPv4-mapped-IPv6 prefix, leave
everything else unchanged. -/
def to_canonical : IpAddr → IpAddr
  | IpAddr.v4 ip => IpAddr.v4 ip
  | IpAddr.v6 ip =>
    match to_ipv4_mapped ip with
    | some ip4 => IpAddr.v4 ip4
    | none => IpAddr.v6 ip

/-- Result of `client_stream.peek(&mut buf)` on a fresh connection: an I/O
error, or `Ok(n)` together with the contents of the 4-byte buffer after the
peek. -/
inductive PeekResult where
  | err
  | ok (n : Nat) (buf : List Nat)
deriving DecidableEq, Repr

/-- Where the accept loop routes a connection. -/
inductive Route where
  | heartbeat
  | player
deriving DecidableEq, Repr

/-- The heartbeat magic `b"hbpk"`. -/
def hbpk : List Nat := [0x68, 0x62, 0x70, 0x6B]

/-- The demultiplexing decision of `listener_handle`:

```rust
if addr.ip().to_canonical() == wan_host {
    let mut buf = [0u8; 4];
    match client_stream.peek(&mut buf).await {
        Ok(n) if n >= 4 && &buf == b"hbpk" => { tokio::spawn(heartbeat_server(client_stream)); continue; }
        _ => { … }
    }
}
… tokio::spawn(forward …)
```
-/
def demux (wan_host : IpAddr) (peer : IpAddr) (pk : PeekResult) : Route :=
  if to_canonical peer = wan_host then
    match pk with
    | PeekResult.ok n buf => if 4 ≤ n ∧ buf = hbpk then Route.heartbeat else Route.player
    | PeekResult.err => Route.player
  else Route.player

/-- C4: heartbeat demux.  An accepted connection reaches the heartbeat
responder iff the canonicalized peer IP equals the current WAN IP and the
peek succeeded with at least 4 bytes equal to `"hbpk"`; every other
connection (different IP, different bytes, short peek, or peek error) goes
to the player forwarding path. -/
theorem demux_heartbeat_iff (wan_host peer : IpAddr) (pk : PeekResult) :
    demux wan_host peer pk = Route.heartbeat ↔
      (to_canonical peer = wan_host ∧
        ∃ n buf, pk = PeekResult.ok n buf ∧ 4 ≤ n ∧ buf = hbpk) := by
  constructor
  · intro h
    by_cases hip : to_canonical peer = wan_host
    · refine ⟨hip, ?_⟩
      cases pk with
      | err => simp [demux, hip] at h
      | ok n buf =>
        by_cases hb : 4 ≤ n ∧ buf = hbpk
        · exact ⟨n, buf, rfl, hb.1, hb.2⟩
        · simp [demux, hip, hb] at h
    · simp [demux, hip] at h
  · rintro ⟨hip, n, buf, rfl, hn, rfl⟩
    simp [demux, hip, hn]

/-- Address produced by `parse_addr` and published by the maintainer
(in the code a `SocketAddr`; the STUN path only ever builds IPv4). -/
inductive SockAddr where
  | v4 (ip : Nat × Nat × Nat × Nat) (port : Nat)
  | v6 (ip : Ip6) (port : Nat)
deriving DecidableEq, Repr

/-- One publish step of `stun_loop` after a successful parse:

```rust
if Some(addr) != last_addr {
    … if let Err(e) = PROVIDER.get().unwrap().update_srv(&host.to_string(), port).await {
        tracing::error!(…);     // last_addr untouched
    } else {
        last_addr = Some(addr);
    }
} else { … heartbeat log … }
```

Returns the new `last_addr` and the argument `update_srv` was invoked with
(`none` when it was not invoked). -/
def stunStep (last : Option SockAddr) (addr : SockAddr) (pubOk : Bool) :
    Option SockAddr × Option SockAddr :=
  if some addr ≠ last then
    ((if pubOk then some addr else last), some addr)
  else (last, none)

/-- C5: publish atomicity.  Whenever the parsed address differs from
`last_addr`, `update_srv` is invoked with exactly that address; `last_addr`
becomes the new address only when the publish succeeds, and on failure it is
left unchanged, so a following iteration that parses the same address
invokes `update_srv` again. -/
theorem stunStep_publish_atomic (last : Option SockAddr) (addr : SockAddr)
    (pubOk : Bool) (hdiff : some addr ≠ last) :
    (stunStep last addr pubOk).2 = some addr ∧
    (pubOk = true → (stunStep last addr pubOk).1 = some addr) ∧
    (pubOk = false →
      (stunStep last addr pubOk).1 = last ∧
      ∀ pubOk', (stunStep (stunStep last addr pubOk).1 addr pubOk').2 = some addr) := by
  refine ⟨by simp [stunStep, hdiff], fun hOk => by simp [stunStep, hdiff, hOk], fun hFail => ?_⟩
  constructor
  · simp [stunStep, hdiff, hFail]
  · intro pubOk'
    simp [stunStep, hdiff, hFail]

/-- Concrete instance of the publish-atomicity theorem: `last_addr = none`,
a fresh address, failed publish. -/
theorem stunStep_publish_atomic_witness :
    (stunStep none (SockAddr.v4 (203, 0, 113, 7) 19132) false).2 =
        some (SockAddr.v4 (203, 0, 113, 7) 19132) ∧
    (false = true →
      (stunStep none (SockAddr.v4 (203, 0, 113, 7) 19132) false).1 =
        some (SockAddr.v4 (203, 0, 113, 7) 19132)) ∧
    (false = false →
      (stunStep none (SockAddr.v4 (203, 0, 113, 7) 19132) false).1 = none ∧
      ∀ pubOk', (stunStep (stunStep none (SockAddr.v4 (203, 0, 113, 7) 19132) false).1
          (SockAddr.v4 (203, 0, 113, 7) 19132) pubOk').2 =
        some (SockAddr.v4 (203, 0, 113, 7) 19132)) :=
  stunStep_publish_atomic none (SockAddr.v4 (203, 0, 113, 7) 19132) false (by decide)

/-! ## Cloudflare DDNS publisher, from `src/ddns/cloudflare.rs`

The HTTP layer is abstracted by boolean oracles (`zoneOk`: the zone-id fetch
succeeded; `aExists`/`srvExists`: `search_record_id` found an existing
record, choosing PATCH over POST; `aOk`/`srvOk`: the provider answered the
upsert with a 2xx status).  `update_srv` is modelled by the ordered list of
upsert requests it sends plus its overall success.
-/

/-- The `data` object of an SRV payload built by `upsert_record`. -/
structure SrvData where
  service : String
  proto : String
  name : String
  priority : Nat
  weight : Nat
  port : Nat
  target : String
deriving DecidableEq, Repr

/-- A Cloudflare DNS record payload as built by `upsert_record`: the common
fields `type`/`name`/`proxied`/`ttl`, then `content` for an A record or
`data` for an SRV record. -/
structure DnsPayload where
  rectype : String
  name : String
  proxied : Bool
  ttl : Nat
  content : Option String
  data : Option SrvData
deriving DecidableEq, Repr

/-- One HTTP upsert request issued by `upsert_record`: record type, record
name, whether it used PATCH (record id found) or POST, and the JSON
payload. -/
structure UpsertCall where
  rectype : String
  full_name : String
  isPatch : Bool
  payload : DnsPayload
deriving DecidableEq, Repr

/-- Payload construction of `upsert_record`; `none` models the
`anyhow::bail!("Unsupported record type")` arm. -/
def upsert_payload (sub_domain rectype full_name content : String)
    (port : Option Nat) : Option DnsPayload :=
  match rectype with
  | "A" => some
    { rectype := rectype, name := full_name, proxied := false, ttl := 60,
      content := some content, data := none }
  | "SRV" => some
    { rectype := rectype, name := full_name, proxied := false, ttl := 60,
      content := none,
      data := some
        { service := "_minecraft", proto := "_tcp", name := sub_domain,
          priority := 10, weight := 0, port := port.getD 0, target := content } }
  | _ => none

/-- `update_srv(host, port)`:

```rust
let zone_id = self.fetch_zone_id().await?;
let a_record_name = if self.sub_domain.is_empty() || self.sub_domain == "@"
    { self.domain.clone() } else { format!("{}.{}", self.sub_domain, self.domain) };
self.upsert_record(&zone_id, "A", &a_record_name, host, None).await?;
let srv_name = format!("_minecraft._tcp.{}", a_record_name);
self.upsert_record(&zone_id, "SRV", &srv_name, &a_record_name, Some(port)).await?;
```

Returns the ordered list of upsert requests actually sent and overall
success. -/
def update_srv (sub_domain domain host : String) (port : Nat)
    (zoneOk aExists aOk srvExists srvOk : Bool) : List UpsertCall × Bool :=
  if zoneOk = false then ([], false)
  else
    let a_record_name :=
      if sub_domain.isEmpty || sub_domain == "@" then domain
      else sub_domain ++ "." ++ domain
    match upsert_payload sub_domain "A" a_record_name host none with
    | none => ([], false)
    | some aPayload =>
      let aCall : UpsertCall :=
        { rectype := "A", full_name := a_record_name, isPatch := aExists,
          payload := aPayload }
      if aOk = false then ([aCall], false)
      else
        let srv_name := "_minecraft._tcp." ++ a_record_name
        match upsert_payload sub_domain "SRV" srv_name a_record_name (some port) with
        | none => ([aCall], false)
        | some srvPayload =>
          ([aCall,
            { rectype := "SRV", full_name := srv_name, isPatch := srvExists,
              payload := srvPayload }], srvOk)

/-- C6: DNS record ordering.  In every run of `update_srv`, any SRV upsert
is preceded by the A upsert and is issued only if the A upsert succeeded;
the SRV payload's target is the A-record name (`sub_domain.domain`, or
`domain` alone when `sub_domain` is empty or `"@"`) — a DNS name, never an
IP address — and the SRV record is named `_minecraft._tcp.<a_name>` with
priority 10, weight 0, ttl 60, proxied false. -/
theorem update_srv_a_before_srv (sub_domain domain host : String) (port : Nat)
    (zoneOk aExists aOk srvExists srvOk : Bool) (srvCall : UpsertCall)
    (hmem : srvCall ∈
      (update_srv sub_domain domain host port zoneOk aExists aOk srvExists srvOk).1)
    (hsrv : srvCall.rectype = "SRV") :
    aOk = true ∧
    (update_srv sub_domain domain host port zoneOk aExists aOk srvExists srvOk).1 =
      [{ rectype := "A",
         full_name := if sub_domain.isEmpty || sub_domain == "@" then domain
           else sub_domain ++ "." ++ domain,
         isPatch := aExists,
         payload :=
           { rectype := "A",
             name := if sub_domain.isEmpty || sub_domain == "@" then domain
               else sub_domain ++ "." ++ domain,
             proxied := false, ttl := 60, content := some host, data := none } },
       srvCall] ∧
    srvCall.full_name =
      "_minecraft._tcp." ++ (if sub_domain.isEmpty || sub_domain == "@" then domain
        else sub_domain ++ "." ++ domain) ∧
    srvCall.payload.name = srvCall.full_name ∧
    srvCall.payload.proxied = false ∧
    srvCall.payload.ttl = 60 ∧
    srvCall.payload.data = some
      { service := "_minecraft", proto := "_tcp", name := sub_domain,
        priority := 10, weight := 0, port := port,
        target := if sub_domain.isEmpty || sub_domain == "@" then domain
          else sub_domain ++ "." ++ domain } := by
  cases zoneOk with
  | false => simp [update_srv] at hmem
  | true =>
    cases aOk with
    | false =>
      simp [update_srv, upsert_payload] at hmem
      rw [hmem] at hsrv
      simp at hsrv
    | true =>
      simp only [update_srv, upsert_payload] at hmem ⊢
      simp at hmem
      rcases hmem with h | h
      · rw [h] at hsrv
        simp at hsrv
      · subst h
        simp

/-- Concrete instance of the record-ordering theorem at the specification's
S4 scenario: `sub_domain = "mc"`, `domain = "example.com"`,
`host = "203.0.113.7"`, `port = 19132`, every oracle succeeding. -/
theorem update_srv_a_before_srv_witness :
    (update_srv "mc" "example.com" "203.0.113.7" 19132 true true true true true).1 =
      [{ rectype := "A", full_name := "mc.example.com", isPatch := true,
         payload :=
           { rectype := "A", name := "mc.example.com", proxied := false,
             ttl := 60, content := some "203.0.113.7", data := none } },
       { rectype := "SRV", full_name := "_minecraft._tcp.mc.example.com", isPatch := true,
         payload :=
           { rectype := "SRV", name := "_minecraft._tcp.mc.example.com",
             proxied := false, ttl := 60, content := none,
             data := some
               { service := "_minecraft", proto := "_tcp", name := "mc",
                 priority := 10, weight := 0, port := 19132,
                 target := "mc.example.com" } } }] := by
  have h := update_srv_a_before_srv "mc" "example.com" "203.0.113.7" 19132
    true true true true true
    { rectype := "SRV", full_name := "_minecraft._tcp.mc.example.com", isPatch := true,
      payload :=
        { rectype := "SRV", name := "_minecraft._tcp.mc.example.com",
          proxied := false, ttl := 60, content := none,
          data := some
            { service := "_minecraft", proto := "_tcp", name := "mc",
              priority := 10, weight := 0, port := 19132,
              target := "mc.example.com" } } }
    (by decide) rfl
  simpa [show ("mc".isEmpty : Bool) = false by decide] using h.2.1

/-! ## PROXY protocol encoders, from `src/forward.rs`

The v1 header is assembled with
`format!("PROXY TCP4 {} {} {} {}\r\n", src.ip(), dst.ip(), src.port(), dst.port())`
(resp. `TCP6`), so the model reproduces the `Display` implementations of
`u16`, `Ipv4Addr` and `Ipv6Addr` from the Rust standard library. -/

/-- `Display for Ipv4Addr`: dotted decimal quad. -/
def ipv4_display (ip : Nat × Nat × Nat × Nat) : String :=
  Nat.repr ip.1 ++ "." ++ Nat.repr ip.2.1 ++ "." ++ Nat.repr ip.2.2.1 ++ "." ++ Nat.repr ip.2.2.2

/-- Rust `{:x}` of a segment: lowercase hex, no padding. -/
def hexStr (n : Nat) : String := (Nat.toDigits 16 n).asString

/-- `Ipv6Addr::segments()`. -/
def Ip6.segments (ip : Ip6) : List Nat :=
  [ip.s0, ip.s1, ip.s2, ip.s3, ip.s4, ip.s5, ip.s6, ip.s7]

/-- `fmt_subslice` of `Display for Ipv6Addr`: hex segments joined by `:`. -/
def joinColon : List String → String
  | [] => ""
  | h :: t => t.foldl (fun acc s2 => acc ++ ":" ++ s2) h

/-- One iteration of the longest-zero-run search of `Display for Ipv6Addr`:
state is `(current, longest)`, input is `(index, segment)`. -/
def zeroSpanStep (st : (Nat × Nat) × (Nat × Nat)) (p : Nat × Nat) :
    (Nat × Nat) × (Nat × Nat) :=
  let cur := st.1
  let best := st.2
  if p.2 = 0 then
    let cur' := (if cur.2 = 0 then p.1 else cur.1, cur.2 + 1)
    (cur', if best.2 < cur'.2 then cur' else best)
  else ((0, 0), best)

/-- `(start, len)` of the first longest run of zero segments. -/
def zeroSpan (segs : List Nat) : Nat × Nat :=
  (segs.enum.foldl zeroSpanStep ((0, 0), (0, 0))).2

/-- `Display for Ipv6Addr`: an IPv4-mapped address prints as
`::ffff:a.b.c.d`; otherwise the longest run of at least two zero segments is
compressed to `::`; otherwise all eight hex segments joined by `:`.
(`::` and `::1` come out of the compression path.) -/
def ipv6_display (ip : Ip6) : String :=
  match to_ipv4_mapped ip with
  | some ip4 => "::ffff:" ++ ipv4_display ip4
  | none =>
    let segs := ip.segments
    let span := zeroSpan segs
    if 1 < span.2 then
      joinColon ((segs.take span.1).map hexStr) ++ "::" ++
        joinColon ((segs.drop (span.1 + span.2)).map hexStr)
    else
      joinColon (segs.map hexStr)

-- sanity checks of the embedded `Display for Ipv6Addr` against Rust's output
example : ipv6_display ⟨1, 0, 0, 2, 0, 0, 0, 3⟩ = "1:0:0:2::3" := rfl
example : ipv6_display ⟨0, 0, 0, 0, 0, 0, 0, 1⟩ = "::1" := rfl
example : ipv6_display ⟨0, 0, 0, 0, 0, 0, 0, 0⟩ = "::" := rfl
example : ipv6_display ⟨0, 0, 0, 0, 0, 0xFFFF, 0xC000, 0x0201⟩ = "::ffff:192.0.2.1" := rfl
example : ipv6_display ⟨0x2001, 0xdb8, 0, 0, 0, 0, 0, 1⟩ = "2001:db8::1" := rfl
example : ipv6_display ⟨1, 2, 3, 0, 5, 6, 7, 8⟩ = "1:2:3:0:5:6:7:8" := rfl

/-- `fn forward`'s header construction (PROXY protocol v1), from the
`(client.peer_addr(), server_stream.local_addr())` pair. -/
def proxy_v1_header : SockAddr → SockAddr → Except String String
  | SockAddr.v4 sip sp, SockAddr.v4 dip dp =>
    Except.ok ("PROXY TCP4 " ++ ipv4_display sip ++ " " ++ ipv4_display dip ++ " " ++
      Nat.repr sp ++ " " ++ Nat.repr dp ++ "\r\n")
  | SockAddr.v6 sip sp, SockAddr.v6 dip dp =>
    Except.ok ("PROXY TCP6 " ++ ipv6_display sip ++ " " ++ ipv6_display dip ++ " " ++
      Nat.repr sp ++ " " ++ Nat.repr dp ++ "\r\n")
  | _, _ => Except.error "Mismatched IP families for PROXY v1"

/-- The 12-byte PROXY v2 signature. -/
def proxy_v2_signature : List Nat :=
  [0x0D, 0x0A, 0x0D, 0x0A, 0x00, 0x0D, 0x0A, 0x51, 0x55, 0x49, 0x54, 0x0A]

/-- `u16::to_be_bytes`. -/
def be16 (n : Nat) : List Nat := [n / 256 % 256, n % 256]

/-- `Ipv4Addr::octets()`. -/
def ip4_octets (ip : Nat × Nat × Nat × Nat) : List Nat := [ip.1, ip.2.1, ip.2.2.1, ip.2.2.2]

/-- `Ipv6Addr::octets()`: the segments as big-endian byte pairs. -/
def ip6_octets (ip : Ip6) : List Nat :=
  be16 ip.s0 ++ be16 ip.s1 ++ be16 ip.s2 ++ be16 ip.s3 ++
    be16 ip.s4 ++ be16 ip.s5 ++ be16 ip.s6 ++ be16 ip.s7

/-- `fn forward_v2`'s binary header construction (PROXY protocol v2). -/
def proxy_v2_header : SockAddr → SockAddr → Except String (List Nat)
  | SockAddr.v4 sip sp, SockAddr.v4 dip dp =>
    Except.ok (proxy_v2_signature ++ [0x21, 0x11] ++ be16 12 ++
      ip4_octets sip ++ ip4_octets dip ++ be16 sp ++ be16 dp)
  | SockAddr.v6 sip sp, SockAddr.v6 dip dp =>
    Except.ok (proxy_v2_signature ++ [0x21, 0x21] ++ be16 36 ++
      ip6_octets sip ++ ip6_octets dip ++ be16 sp ++ be16 dp)
  | _, _ => Except.error "Mismatched IP families for PROXY v2"

/-! ### Character-class lemmas for the v1 ASCII format -/

/-- `Nat.digitChar` of a value below 10 is a decimal digit. -/
theorem digitChar_isDigit (m : Nat) (h : m < 10) : (Nat.digitChar m).isDigit = true := by
  interval_cases m <;> decide

/-- A lowercase hexadecimal digit, as produced by Rust's `{:x}`. -/
def isHexChar (ch : Char) : Bool := ch.isDigit || ('a' ≤ ch && ch ≤ 'f')

/-- `Nat.digitChar` of a value below 16 is a hex digit. -/
theorem digitChar_isHexChar (m : Nat) (h : m < 16) : isHexChar (Nat.digitChar m) = true := by
  interval_cases m <;> decide

/-- Every character `Nat.toDigitsCore` emits is a `digitChar` of a residue,
plus whatever was already in the accumulator. -/
theorem toDigitsCore_chars (b : Nat) (P : Char → Prop)
    (hP : ∀ m, P (Nat.digitChar (m % b))) :
    ∀ (f n : Nat) (ds : List Char), (∀ ch ∈ ds, P ch) →
      ∀ ch ∈ Nat.toDigitsCore b f n ds, P ch := by
  intro f
  induction f with
  | zero =>
    intro n ds hds ch hch
    simp only [Nat.toDigitsCore] at hch
    exact hds ch hch
  | succ f ih =>
    intro n ds hds ch hch
    simp only [Nat.toDigitsCore] at hch
    by_cases h0 : n / b = 0
    · rw [if_pos h0] at hch
      rcases List.mem_cons.mp hch with h | h
      · exact h ▸ hP n
      · exact hds ch h
    · rw [if_neg h0] at hch
      refine ih (n / b) (Nat.digitChar (n % b) :: ds) ?_ ch hch
      intro c hcc
      rcases List.mem_cons.mp hcc with h | h
      · exact h ▸ hP n
      · exact hds c h

/-- `Nat.toDigitsCore` with fuel left (or a nonempty accumulator) never
returns the empty list. -/
theorem toDigitsCore_ne_nil (b : Nat) :
    ∀ (f n : Nat) (ds : List Char), f ≠ 0 ∨ ds ≠ [] →
      Nat.toDigitsCore b f n ds ≠ [] := by
  intro f
  induction f with
  | zero =>
    intro n ds h
    simp only [Nat.toDigitsCore]
    exact h.resolve_left (by simp)
  | succ f ih =>
    intro n ds _
    simp only [Nat.toDigitsCore]
    by_cases h0 : n / b = 0
    · rw [if_pos h0]
      simp
    · rw [if_neg h0]
      exact ih (n / b) (Nat.digitChar (n % b) :: ds) (Or.inr (by simp))

/-- Every character of `Nat.repr n` is a decimal digit. -/
theorem repr_chars_digit (n : Nat) : ∀ ch ∈ (Nat.repr n).data, ch.isDigit = true := by
  have h := toDigitsCore_chars 10 (fun ch => ch.isDigit = true)
    (fun m => digitChar_isDigit (m % 10) (Nat.mod_lt _ (by norm_num)))
    (n + 1) n [] (by simp)
  simpa [Nat.repr, Nat.toDigits, List.asString] using h

/-- `Nat.repr n` is never the empty string. -/
theorem repr_ne_nil (n : Nat) : (Nat.repr n).data ≠ [] := by
  have h := toDigitsCore_ne_nil 10 (n + 1) n [] (Or.inl (by omega))
  simpa [Nat.repr, Nat.toDigits, List.asString] using h

/-- Every character of `hexStr n` is a hex digit. -/
theorem hexStr_chars (n : Nat) : ∀ ch ∈ (hexStr n).data, isHexChar ch = true := by
  have h := toDigitsCore_chars 16 (fun ch => isHexChar ch = true)
    (fun m => digitChar_isHexChar (m % 16) (Nat.mod_lt _ (by norm_num)))
    (n + 1) n [] (by simp)
  simpa [hexStr, Nat.toDigits, List.asString] using h

/-- `hexStr n` is never empty. -/
theorem hexStr_ne_nil (n : Nat) : (hexStr n).data ≠ [] := by
  have h := toDigitsCore_ne_nil 16 (n + 1) n [] (Or.inl (by omega))
  simpa [hexStr, Nat.toDigits, List.asString] using h

/-- Characters of a string append, by cases. -/
theorem append_chars (P : Char → Prop) (s t : String)
    (hs : ∀ ch ∈ s.data, P ch) (ht : ∀ ch ∈ t.data, P ch) :
    ∀ ch ∈ (s ++ t).data, P ch := by
  intro ch hch
  rw [String.data_append] at hch
  rcases List.mem_append.mp hch with h | h
  · exact hs ch h
  · exact ht ch h

/-- Characters of the colon-joined fold. -/
theorem foldlColon_chars (P : Char → Prop) (hc : P ':') :
    ∀ (t : List String) (acc : String), (∀ ch ∈ acc.data, P ch) →
      (∀ s2 ∈ t, ∀ ch ∈ s2.data, P ch) →
      ∀ ch ∈ (t.foldl (fun a s2 => a ++ ":" ++ s2) acc).data, P ch := by
  intro t
  induction t with
  | nil =>
    intro acc hacc _ ch hch
    exact hacc ch hch
  | cons s2 t ih =>
    intro acc hacc ht ch hch
    simp only [List.foldl] at hch
    refine ih (acc ++ ":" ++ s2) ?_ (fun x hx => ht x (by simp [hx])) ch hch
    refine append_chars P _ _ (append_chars P _ _ hacc ?_) (ht s2 (by simp))
    intro c hcc
    have : c = ':' := by simpa using hcc
    exact this ▸ hc

/-- Characters of `joinColon`. -/
theorem joinColon_chars (P : Char → Prop) (hc : P ':') (l : List String)
    (hl : ∀ s ∈ l, ∀ ch ∈ s.data, P ch) : ∀ ch ∈ (joinColon l).data, P ch := by
  cases l with
  | nil => intro ch hch; simp [joinColon] at hch
  | cons h t =>
    exact foldlColon_chars P hc t h (hl h (by simp)) (fun s hs => hl s (by simp [hs]))

/-- The colon-joined fold of a nonempty accumulator is nonempty. -/
theorem foldlColon_ne_nil :
    ∀ (t : List String) (acc : String), acc.data ≠ [] →
      (t.foldl (fun a s2 => a ++ ":" ++ s2) acc).data ≠ [] := by
  intro t
  induction t with
  | nil => intro acc hacc; exact hacc
  | cons s2 t ih =>
    intro acc hacc
    simp only [List.foldl]
    refine ih (acc ++ ":" ++ s2) ?_
    rw [String.data_append, String.data_append]
    simp

/-- Every character of `ipv4_display` is a digit or a dot, and the string is
nonempty. -/
theorem ipv4_display_chars (ip : Nat × Nat × Nat × Nat) :
    (ipv4_display ip).data ≠ [] ∧
    ∀ ch ∈ (ipv4_display ip).data, ch.isDigit = true ∨ ch = '.' := by
  constructor
  · rw [ipv4_display]
    intro h
    simp only [String.data_append, List.append_eq_nil] at h
    exact repr_ne_nil ip.1 h.1.1.1.1.1.1
  · have dot : ∀ ch ∈ (".".data : List Char), ch.isDigit = true ∨ ch = '.' := by decide
    have num : ∀ n : Nat, ∀ ch ∈ (Nat.repr n).data, ch.isDigit = true ∨ ch = '.' :=
      fun n ch hch => Or.inl (repr_chars_digit n ch hch)
    rw [ipv4_display]
    exact append_chars _ _ _
      (append_chars _ _ _
        (append_chars _ _ _
          (append_chars _ _ _
            (append_chars _ _ _
              (append_chars _ _ _ (num _) dot) (num _)) dot) (num _)) dot) (num _)

/-- Every character of `ipv6_display` is a hex digit, a colon or a dot, and
the string is nonempty. -/
theorem ipv6_display_chars (ip : Ip6) :
    (ipv6_display ip).data ≠ [] ∧
    ∀ ch ∈ (ipv6_display ip).data, isHexChar ch = true ∨ ch = ':' ∨ ch = '.' := by
  have digitHex : ∀ ch : Char, ch.isDigit = true → isHexChar ch = true := by
    intro ch h
    simp [isHexChar, h]
  rw [ipv6_display]
  cases hmap : to_ipv4_mapped ip with
  | some ip4 =>
    constructor
    · intro h
      simp only [String.data_append, List.append_eq_nil] at h
      exact absurd h.1 (by decide)
    · refine append_chars _ _ _ ?_ ?_
      · have hpre : ∀ ch ∈ "::ffff:".data, isHexChar ch = true ∨ ch = ':' ∨ ch = '.' := by
          decide
        exact hpre
      · intro ch hch
        rcases (ipv4_display_chars ip4).2 ch hch with h | h
        · exact Or.inl (digitHex ch h)
        · exact Or.inr (Or.inr h)
  | none =>
    have segsChars : ∀ l : List Nat, ∀ s ∈ l.map hexStr, ∀ ch ∈ s.data,
        isHexChar ch = true ∨ ch = ':' ∨ ch = '.' := by
      intro l s hs ch hch
      rcases List.mem_map.mp hs with ⟨m, _, rfl⟩
      exact Or.inl (hexStr_chars m ch hch)
    have colon : ∀ ch ∈ ("::".data : List Char), isHexChar ch = true ∨ ch = ':' ∨ ch = '.' := by
      decide
    by_cases hspan : 1 < (zeroSpan ip.segments).2
    · rw [if_pos hspan]
      constructor
      · intro h
        simp only [String.data_append, List.append_eq_nil] at h
        exact absurd h.1.2 (by decide)
      · exact append_chars _ _ _
          (append_chars _ _ _
            (joinColon_chars _ (Or.inr (Or.inl rfl)) _ (segsChars _)) colon)
          (joinColon_chars _ (Or.inr (Or.inl rfl)) _ (segsChars _))
    · rw [if_neg hspan]
      constructor
      · rw [Ip6.segments]
        simp only [List.map, joinColon]
        exact foldlColon_ne_nil _ _ (hexStr_ne_nil ip.s0)
      · exact joinColon_chars _ (Or.inr (Or.inl rfl)) _ (segsChars _)

/-- C7: PROXY v1 header format.  For same-family address pairs the header is
`"PROXY TCP4 "` / `"PROXY TCP6 "` followed by source IP, destination IP,
source port and destination port separated by single spaces and terminated
by CRLF; the IP fields are nonempty and contain only digits/dots (IPv4) or
hex digits/colons/dots (IPv6) — in particular no spaces or CR/LF — and the
port fields are nonempty digit strings, which together give the regex
`/^PROXY TCP[46] <ip> <ip> \d+ \d+\r\n$/` with exactly two spaces before
each of the two ports.  The final conjunct is scenario S2. -/
theorem proxy_v1_format :
    (∀ (sip dip : Nat × Nat × Nat × Nat) (sp dp : Nat),
      proxy_v1_header (SockAddr.v4 sip sp) (SockAddr.v4 dip dp) =
        Except.ok ("PROXY TCP4 " ++ ipv4_display sip ++ " " ++ ipv4_display dip ++ " " ++
          Nat.repr sp ++ " " ++ Nat.repr dp ++ "\r\n")) ∧
    (∀ (sip dip : Ip6) (sp dp : Nat),
      proxy_v1_header (SockAddr.v6 sip sp) (SockAddr.v6 dip dp) =
        Except.ok ("PROXY TCP6 " ++ ipv6_display sip ++ " " ++ ipv6_display dip ++ " " ++
          Nat.repr sp ++ " " ++ Nat.repr dp ++ "\r\n")) ∧
    (∀ ip : Nat × Nat × Nat × Nat, (ipv4_display ip).data ≠ [] ∧
      ∀ ch ∈ (ipv4_display ip).data, ch.isDigit = true ∨ ch = '.') ∧
    (∀ ip : Ip6, (ipv6_display ip).data ≠ [] ∧
      ∀ ch ∈ (ipv6_display ip).data, isHexChar ch = true ∨ ch = ':' ∨ ch = '.') ∧
    (∀ n : Nat, (Nat.repr n).data ≠ [] ∧ ∀ ch ∈ (Nat.repr n).data, ch.isDigit = true) ∧
    proxy_v1_header (SockAddr.v4 (192, 0, 2, 1) 12345) (SockAddr.v4 (198, 51, 100, 2) 25565) =
      Except.ok "PROXY TCP4 192.0.2.1 198.51.100.2 12345 25565\r\n" := by
  refine ⟨fun _ _ _ _ => rfl, fun _ _ _ _ => rfl, ipv4_display_chars, ipv6_display_chars,
    fun n => ⟨repr_ne_nil n, repr_chars_digit n⟩, ?_⟩
  rfl

/-- C8: PROXY v2 header bytes.  For IPv4 pairs the header is exactly
16 + 12 = 28 bytes: the 12-byte signature, then `21 11 00 0C`, then source
and destination octets and big-endian ports; for IPv6 pairs it is exactly
16 + 36 = 52 bytes with `21 21 00 24`.  The final conjunct is scenario
S3. -/
theorem proxy_v2_format :
    (∀ (sip dip : Nat × Nat × Nat × Nat) (sp dp : Nat), ∃ hdr,
      proxy_v2_header (SockAddr.v4 sip sp) (SockAddr.v4 dip dp) = Except.ok hdr ∧
      hdr.length = 16 + 12 ∧
      (hdr.drop 12).take 4 = [0x21, 0x11, 0x00, 0x0C] ∧
      hdr = proxy_v2_signature ++ [0x21, 0x11, 0x00, 0x0C] ++
        ip4_octets sip ++ ip4_octets dip ++ be16 sp ++ be16 dp) ∧
    (∀ (sip dip : Ip6) (sp dp : Nat), ∃ hdr,
      proxy_v2_header (SockAddr.v6 sip sp) (SockAddr.v6 dip dp) = Except.ok hdr ∧
      hdr.length = 16 + 36 ∧
      (hdr.drop 12).take 4 = [0x21, 0x21, 0x00, 0x24]) ∧
    proxy_v2_header (SockAddr.v4 (10, 0, 0, 1) 1000) (SockAddr.v4 (10, 0, 0, 2) 2000) =
      Except.ok ([0x0D, 0x0A, 0x0D, 0x0A, 0x00, 0x0D, 0x0A, 0x51, 0x55, 0x49, 0x54, 0x0A] ++
        [0x21, 0x11, 0x00, 0x0C] ++ [0x0A, 0x00, 0x00, 0x01] ++ [0x0A, 0x00, 0x00, 0x02] ++
        [0x03, 0xE8] ++ [0x07, 0xD0]) := by
  refine ⟨?_, ?_, rfl⟩
  · intro sip dip sp dp
    refine ⟨_, rfl, ?_, ?_⟩
    · simp [proxy_v2_signature, be16, ip4_octets]
    · simp [proxy_v2_signature, be16, ip4_octets]
  · intro sip dip sp dp
    refine ⟨_, rfl, ?_, ?_⟩
    · simp [proxy_v2_signature, be16, ip6_octets]
    · simp [proxy_v2_signature, be16, ip6_octets]

/-- Upstream writes performed by `fn forward` before the bidirectional copy
phase, together with the error it returns instead of reaching the copy:
the v1 header string is written only when the family match succeeds; on
`Err` the function returns before `copy_bidirectional`, so no client bytes
flow either. -/
def forward_upstream_writes (haproxy : Bool) (client_addr server_local_addr : SockAddr) :
    List String × Option String :=
  if haproxy then
    match proxy_v1_header client_addr server_local_addr with
    | Except.ok hdr => ([hdr], none)
    | Except.error e => ([], some e)
  else ([], none)

/-- Upstream writes performed by `fn forward_v2` before the copy phase. -/
def forward_v2_upstream_writes (haproxy : Bool) (client_addr server_local_addr : SockAddr) :
    List (List Nat) × Option String :=
  if haproxy then
    match proxy_v2_header client_addr server_local_addr with
    | Except.ok hdr => ([hdr], none)
    | Except.error e => ([], some e)
  else ([], none)

/-- Whether a socket address is IPv4. -/
def sock_is_v4 : SockAddr → Bool
  | SockAddr.v4 _ _ => true
  | SockAddr.v6 _ _ => false

/-- C9: family mismatch.  With haproxy enabled, when the client peer address
and the upstream local address have different IP families, both the v1 and
the v2 forwarding paths fail with the family-mismatch error and write
nothing to the upstream connection. -/
theorem family_mismatch_no_write (c s : SockAddr) (h : sock_is_v4 c ≠ sock_is_v4 s) :
    forward_upstream_writes true c s = ([], some "Mismatched IP families for PROXY v1") ∧
    forward_v2_upstream_writes true c s = ([], some "Mismatched IP families for PROXY v2") := by
  cases c <;> cases s <;>
    simp_all [forward_upstream_writes, forward_v2_upstream_writes,
      proxy_v1_header, proxy_v2_header, sock_is_v4]

/-- Concrete instance of the family-mismatch theorem: IPv4 client peer,
IPv6 upstream local address. -/
theorem family_mismatch_no_write_witness :
    forward_upstream_writes true (SockAddr.v4 (192, 0, 2, 1) 12345)
        (SockAddr.v6 ⟨0, 0, 0, 0, 0, 0, 0, 1⟩ 25565) =
      ([], some "Mismatched IP families for PROXY v1") ∧
    forward_v2_upstream_writes true (SockAddr.v4 (192, 0, 2, 1) 12345)
        (SockAddr.v6 ⟨0, 0, 0, 0, 0, 0, 0, 1⟩ 25565) =
      ([], some "Mismatched IP families for PROXY v2") :=
  family_mismatch_no_write (SockAddr.v4 (192, 0, 2, 1) 12345)
    (SockAddr.v6 ⟨0, 0, 0, 0, 0, 0, 0, 1⟩ 25565) (by decide)

end BedrockHole
